import Mathlib

/-!
Shallow embedding of `src/AdventureGame.cpp` (Mystic Quest).

The program is a menu-driven text adventure: a `Player` fights an `Enemy`
in a turn-based loop, can collect treasures, and can save/load the pair
(name, health) to a text file.  Console I/O is modelled by passing the
sequence of in-combat action selections as a list; file I/O is modelled
by passing the file's parsed content (or `none` for an open failure)
explicitly.  C++ `int` values are modelled as `Int`; every arithmetic
operation in the source stays far from 32-bit overflow.
-/

namespace AdventureGame

/-- The clamped damage subtraction shared by every combatant:
`Character::takeDamage` does `health -= damage; if (health < 0) health = 0;`.
Note the clamp is one-sided: a negative `damage` raises health. -/
def damageClamp (health damage : Int) : Int :=
  if health - damage < 0 then 0 else health - damage

/-- The abstract base `Character`: a name and an `int` health. -/
structure Character where
  name : String
  health : Int
deriving Repr, DecidableEq

/-- `Character::takeDamage(int damage)`. -/
def Character.takeDamage (c : Character) (damage : Int) : Character :=
  { c with health := damageClamp c.health damage }

/-- `Player`: a `Character` with a treasure counter; the constructor
`Player(string name)` sets health 100 and `treasuresCollected` 0. -/
structure Player where
  name : String
  health : Int
  treasuresCollected : Int
deriving Repr, DecidableEq

/-- `Player(string name) : Character(name, 100), treasuresCollected(0)`. -/
def Player.make (name : String) : Player :=
  { name := name, health := 100, treasuresCollected := 0 }

/-- The inherited `takeDamage` as seen on a `Player`. -/
def Player.takeDamage (p : Player) (damage : Int) : Player :=
  { p with health := damageClamp p.health damage }

/-- `Player::collectTreasure`: `treasuresCollected++`. -/
def Player.collectTreasure (p : Player) : Player :=
  { p with treasuresCollected := p.treasuresCollected + 1 }

/-- `Enemy`: a `Character` whose constructor `Enemy(string name)` sets
health 50. -/
structure Enemy where
  name : String
  health : Int
deriving Repr, DecidableEq

/-- `Enemy(string name) : Character(name, 50)`. -/
def Enemy.make (name : String) : Enemy :=
  { name := name, health := 50 }

/-- The inherited `takeDamage` as seen on an `Enemy`. -/
def Enemy.takeDamage (e : Enemy) (damage : Int) : Enemy :=
  { e with health := damageClamp e.health damage }

/-- `Player::attack(Character& target)`: `target.takeDamage(20)`. -/
def Player.attack (_p : Player) (target : Enemy) : Enemy :=
  target.takeDamage 20

/-- `Enemy::attack(Character& target)`: `target.takeDamage(15)`. -/
def Enemy.attack (_e : Enemy) (target : Player) : Player :=
  target.takeDamage 15

/-- One in-combat action selection, as read by `cin >> action` inside
`Game::play` (1 = attack, 2 = collect treasure, 3 = save and exit,
anything else = invalid). -/
inductive Action
  | attack
  | collect
  | saveExit
  | invalid
deriving Repr, DecidableEq

/-- How a run of `Game::play` ends. -/
inductive Outcome
  | defeated
  | victory
  | savedExit
deriving Repr, DecidableEq

/-- The outcome message printed after the combat loop: defeat and victory
each print one line; the save-and-exit path returns before either check. -/
def outcomeMessage : Outcome → Option String
  | .defeated => some "You have been defeated. Game over.\n"
  | .victory => some "You defeated the enemy! Victory!\n"
  | .savedExit => none

/-- The two-line file written by `Game::saveGame`: the player's name and
health. -/
structure SaveFile where
  name : String
  health : Int
deriving Repr, DecidableEq

/-- `Game::saveGame`: writes `player->getName()` and `player->getHealth()`. -/
def saveGame (p : Player) : SaveFile :=
  { name := p.name, health := p.health }

/-- `Game::play`, with the stream of action selections passed as a list.
Returns the outcome (or `none` if the input list runs dry while the loop
is still ongoing, where the real program would block on `cin`) together
with the file written by the save-and-exit branch, if that branch ran. -/
def play : Player → Enemy → List Action → Option Outcome × Option SaveFile
  | p, e, acts =>
    if p.health > 0 ∧ e.health > 0 then
      match acts with
      | [] => (none, none)
      | .attack :: rest =>
          let e' := p.attack e
          let p' := if e'.health > 0 then e'.attack p else p
          play p' e' rest
      | .collect :: rest => play p.collectTreasure e rest
      | .saveExit :: _ => (some .savedExit, some (saveGame p))
      | .invalid :: rest => play p e rest
    else if p.health ≤ 0 then (some .defeated, none)
    else if e.health ≤ 0 then (some .victory, none)
    else (none, none)

/-- The parsed content of `game_state.txt` as consumed by
`file >> playerName >> playerHealth` in `Game::loadGame`.  `healthTok` is
`none` when the integer extraction fails; since C++11 a failed `int`
extraction stores 0 into the target, which `readHealth` reflects. -/
structure FileRead where
  name : String
  healthTok : Option Int
deriving Repr, DecidableEq

/-- The value left in `playerHealth` by the extraction (C++11: 0 on
failure). -/
def FileRead.readHealth (f : FileRead) : Int :=
  f.healthTok.getD 0

/-- The result of one `Game::loadGame` call: the `player` field of `Game`
afterwards, whether `play()` was entered, and whether the `catch` branch
reported an error. -/
structure LoadResult where
  player : Option Player
  enteredCombat : Bool
  errorReported : Bool
deriving Repr, DecidableEq

/-- `Game::loadGame`, with the file passed explicitly: `none` models an
open failure (the `throw`/`catch` path).  `prev` is the `player` field of
`Game` before the call; on the failure path it is left untouched and
`play()` is not reached. -/
def loadGame (prev : Option Player) (file : Option FileRead) : LoadResult :=
  match file with
  | none => { player := prev, enteredCombat := false, errorReported := true }
  | some f =>
      let p := (Player.make f.name).takeDamage (100 - f.readHealth)
      { player := some p, enteredCombat := true, errorReported := false }

/-- An operation on the combat pair reachable through the program's public
mutators: `takeDamage` on either side (this covers `Player::attack`,
`Enemy::attack` and `loadGame`'s adjustment, each a `takeDamage` call with
a specific amount) and `Player::collectTreasure`. -/
inductive Op
  | damagePlayer (d : Int)
  | damageEnemy (d : Int)
  | collect
deriving Repr, DecidableEq

/-- Apply one operation to the combat pair. -/
def applyOp : Player × Enemy → Op → Player × Enemy
  | (p, e), .damagePlayer d => (p.takeDamage d, e)
  | (p, e), .damageEnemy d => (p, e.takeDamage d)
  | (p, e), .collect => (p.collectTreasure, e)

/-- Run a sequence of operations from a state. -/
def runOps (s : Player × Enemy) (ops : List Op) : Player × Enemy :=
  ops.foldl applyOp s

/-- One attack exchange of the combat loop (`action == 1`): the player
attacks; the enemy retaliates only if still alive. -/
def attackStep (s : Player × Enemy) : Player × Enemy :=
  let e' := s.1.attack s.2
  let p' := if e'.health > 0 then e'.attack s.1 else s.1
  (p', e')

/-- Re-parsing the file `saveGame` wrote: the two lines `name` then
`health` are consumed by `file >> playerName >> playerHealth`, which for
a whitespace-free name yields the name token and a successful integer
extraction. -/
def SaveFile.reread (s : SaveFile) : FileRead :=
  { name := s.name, healthTok := some s.health }

/- ------------------------------------------------------------------ -/
/- Helper lemmas (shared)                                             -/
/- ------------------------------------------------------------------ -/

/-- The clamp can never produce a negative health, whatever the damage. -/
theorem damageClamp_nonneg (h d : Int) : 0 ≤ damageClamp h d := by
  unfold damageClamp; split <;> omega

/-- The clamp is `max 0 (h - d)`. -/
theorem damageClamp_eq_max (h d : Int) : damageClamp h d = max 0 (h - d) := by
  unfold damageClamp; split <;> omega

/-- The player side of one attack exchange, written out. -/
theorem attackStep_fst (p : Player) (e : Enemy) :
    (attackStep (p, e)).1 =
      if (e.takeDamage 20).health > 0 then p.takeDamage 15 else p := rfl

/-- The enemy side of one attack exchange, written out. -/
theorem attackStep_snd (p : Player) (e : Enemy) :
    (attackStep (p, e)).2 = e.takeDamage 20 := rfl

/-- A player already at (or below) zero health never enters the loop body:
`play` exits at once with the defeat outcome. -/
theorem play_defeated (p : Player) (e : Enemy) (acts : List Action)
    (hp : p.health ≤ 0) : play p e acts = (some .defeated, none) := by
  have hng : ¬ (p.health > 0 ∧ e.health > 0) := fun hc => absurd hc.1 (by omega)
  cases acts with
  | nil => rw [play, if_neg hng, if_pos hp]
  | cons a rest =>
      cases a <;> rw [play, if_neg hng, if_pos hp]

/- ------------------------------------------------------------------ -/
/- Claim theorems                                                     -/
/- ------------------------------------------------------------------ -/

/-- Claim C1: for every starting health `h ≥ 0` and damage `d ≥ 0`,
`takeDamage d` leaves health equal to `max 0 (h - d)`; in particular
health becomes 0 (not negative) when `d > h`, and is unchanged when
`d = 0`. -/
theorem takeDamage_eq_max_clamp (c : Character) (d : Int)
    (hc : 0 ≤ c.health) (hd : 0 ≤ d) :
    (c.takeDamage d).health = max 0 (c.health - d) ∧
    (c.health < d → (c.takeDamage d).health = 0) ∧
    (d = 0 → (c.takeDamage d).health = c.health) := by
  refine ⟨damageClamp_eq_max c.health d, ?_, ?_⟩ <;>
    ( intro h
      show damageClamp c.health d = _
      unfold damageClamp
      split <;> omega )

/-- Claim C1 witness: the theorem instantiated at health 10, damage 20. -/
theorem takeDamage_eq_max_clamp_witness :
    ((Character.mk "Goblin" 10).takeDamage 20).health = max 0 (10 - 20) ∧
    ((10:Int) < 20 → ((Character.mk "Goblin" 10).takeDamage 20).health = 0) ∧
    ((20:Int) = 0 → ((Character.mk "Goblin" 10).takeDamage 20).health = 10) :=
  takeDamage_eq_max_clamp (Character.mk "Goblin" 10) 20 (by decide) (by decide)

/-- Claim C2: saving a Player named "Hero" at health 80 and loading the
resulting file yields a Player named "Hero" at health exactly 80 (the
load constructs a fresh 100-health Player and applies damage 20). -/
theorem save_load_roundtrip_hero80 :
    ((Player.make "Hero").takeDamage 20).health = 80 ∧
    (loadGame none
        (some (SaveFile.reread (saveGame ((Player.make "Hero").takeDamage 20))))).player =
      some { name := "Hero", health := 80, treasuresCollected := 0 } := by
  decide

/-- Claim C3: in a combat iteration whose action is attack, the Player
deals exactly 20 damage to the Enemy (`takeDamage 20`, i.e. the Enemy's
health becomes `max 0 (h - 20)`); the Enemy deals exactly 15 back
(`takeDamage 15`) if and only if its health is still positive after the
hit, and otherwise the Player is left untouched — one counter-attack at
most. -/
theorem attack_turn_exchange (p : Player) (e : Enemy) (rest : List Action)
    (hp : p.health > 0) (he : e.health > 0) :
    play p e (.attack :: rest) =
      play (attackStep (p, e)).1 (attackStep (p, e)).2 rest ∧
    (attackStep (p, e)).2 = e.takeDamage 20 ∧
    (e.takeDamage 20).health = max 0 (e.health - 20) ∧
    ((e.takeDamage 20).health > 0 ↔ (attackStep (p, e)).1 = p.takeDamage 15) ∧
    (¬ (e.takeDamage 20).health > 0 → (attackStep (p, e)).1 = p) := by
  refine ⟨?_, rfl, damageClamp_eq_max e.health 20, ?_, ?_⟩
  · rw [play]
    rw [if_pos ⟨hp, he⟩]
    rfl
  · rw [attackStep_fst]
    constructor
    · intro h
      rw [if_pos h]
    · intro h
      by_cases hcase : (e.takeDamage 20).health > 0
      · exact hcase
      · exfalso
        rw [if_neg hcase] at h
        have hh := congrArg Player.health h
        have h15 : (p.takeDamage 15).health = damageClamp p.health 15 := rfl
        rw [h15] at hh
        unfold damageClamp at hh
        split at hh <;> omega
  · intro h
    rw [attackStep_fst, if_neg h]

/-- Claim C3 witness: the theorem instantiated at a fresh Player and a
fresh Enemy with an empty remaining action stream. -/
theorem attack_turn_exchange_witness :
    play (Player.make "A") (Enemy.make "B") [.attack] =
      play (attackStep (Player.make "A", Enemy.make "B")).1
        (attackStep (Player.make "A", Enemy.make "B")).2 [] ∧
    (attackStep (Player.make "A", Enemy.make "B")).2 =
      (Enemy.make "B").takeDamage 20 ∧
    ((Enemy.make "B").takeDamage 20).health =
      max 0 ((Enemy.make "B").health - 20) ∧
    (((Enemy.make "B").takeDamage 20).health > 0 ↔
      (attackStep (Player.make "A", Enemy.make "B")).1 =
        (Player.make "A").takeDamage 15) ∧
    (¬ ((Enemy.make "B").takeDamage 20).health > 0 →
      (attackStep (Player.make "A", Enemy.make "B")).1 = Player.make "A") :=
  attack_turn_exchange (Player.make "A") (Enemy.make "B") [] (by decide) (by decide)

/-- Claim C4: health is never negative.  Starting from constructed
combatants, every sequence of the public mutating operations —
`takeDamage` with an arbitrary amount on either side (covering
`Player::attack`, `Enemy::attack` and `loadGame`'s adjustment) and
`collectTreasure` — keeps both healths non-negative. -/
theorem health_never_negative (pname ename : String) (ops : List Op) :
    0 ≤ (runOps (Player.make pname, Enemy.make ename) ops).1.health ∧
    0 ≤ (runOps (Player.make pname, Enemy.make ename) ops).2.health := by
  have key : ∀ (ops : List Op) (s : Player × Enemy),
      0 ≤ s.1.health → 0 ≤ s.2.health →
      0 ≤ (runOps s ops).1.health ∧ 0 ≤ (runOps s ops).2.health := by
    intro ops
    induction ops with
    | nil => intro s h1 h2; exact ⟨h1, h2⟩
    | cons op rest ih =>
        intro s h1 h2
        have hstep : 0 ≤ (applyOp s op).1.health ∧ 0 ≤ (applyOp s op).2.health := by
          obtain ⟨p, e⟩ := s
          cases op with
          | damagePlayer d => exact ⟨damageClamp_nonneg p.health d, h2⟩
          | damageEnemy d => exact ⟨h1, damageClamp_nonneg e.health d⟩
          | collect => exact ⟨h1, h2⟩
        exact ih (applyOp s op) hstep.1 hstep.2
  exact key ops (Player.make pname, Enemy.make ename)
    (by show (0:Int) ≤ 100; norm_num) (by show (0:Int) ≤ 50; norm_num)

/-- Claim C5: from Player health 100 and Enemy health 50, repeated attack
actions give the Enemy trace 50 → 30 → 10 → 0 and the Player trace
100 → 85 → 70 → 70 (retaliation only on the first two exchanges), and
`play` on three attacks ends in the victory outcome. -/
theorem victory_scenario_trace :
    attackStep (Player.make "Hero", Enemy.make "Goblin") =
      ({ name := "Hero", health := 85, treasuresCollected := 0 },
       { name := "Goblin", health := 30 }) ∧
    attackStep (attackStep (Player.make "Hero", Enemy.make "Goblin")) =
      ({ name := "Hero", health := 70, treasuresCollected := 0 },
       { name := "Goblin", health := 10 }) ∧
    attackStep (attackStep (attackStep (Player.make "Hero", Enemy.make "Goblin"))) =
      ({ name := "Hero", health := 70, treasuresCollected := 0 },
       { name := "Goblin", health := 0 }) ∧
    play (Player.make "Hero") (Enemy.make "Goblin") [.attack, .attack, .attack] =
      (some .victory, none) := by
  decide

/-- Claim C6 counterexample: a file recording health 150 loads to a
Player at health 150, which exceeds the default 100 — the
damage-adjustment scheme applies damage 100 − 150 = −50, and the clamp
only prevents negative health, so negative damage heals above 100. -/
theorem load_saved150_exceeds_default_cex :
    ((loadGame none (some { name := "Hero", healthTok := some 150 })).player.map
        Player.health) = some 150 ∧
    ¬ ((150:Int) ≤ 100) := by
  decide

/-- Claim C6 amended: the loaded Player's health equals
`max 0 savedHealth`; it is at most 100 exactly when the saved value is at
most 100, and a saved value above 100 is reproduced verbatim. -/
theorem load_health_eq_max_saved (n : String) (h : Int) :
    ((loadGame none (some { name := n, healthTok := some h })).player.map
        Player.health) = some (max 0 h) ∧
    (max 0 h ≤ 100 ↔ h ≤ 100) := by
  constructor
  · show some (damageClamp 100 (100 - h)) = some (max 0 h)
    rw [damageClamp_eq_max]
    congr 1
    omega
  · constructor <;> omega

/-- Claim C7: in an ongoing combat iteration, the save-and-exit action
writes the current Player's name and health through `saveGame` and
terminates the loop at once in the saved-exit outcome, which carries no
outcome message (neither victory nor defeat text). -/
theorem save_exit_no_outcome (p : Player) (e : Enemy) (rest : List Action)
    (hp : p.health > 0) (he : e.health > 0) :
    play p e (.saveExit :: rest) = (some .savedExit, some (saveGame p)) ∧
    saveGame p = { name := p.name, health := p.health } ∧
    outcomeMessage .savedExit = none := by
  refine ⟨?_, rfl, rfl⟩
  rw [play, if_pos ⟨hp, he⟩]

/-- Claim C7 witness: the theorem instantiated at a fresh Player and
Enemy. -/
theorem save_exit_no_outcome_witness :
    play (Player.make "A") (Enemy.make "B") [.saveExit] =
      (some .savedExit, some (saveGame (Player.make "A"))) ∧
    saveGame (Player.make "A") = { name := "A", health := 100 } ∧
    outcomeMessage .savedExit = none :=
  save_exit_no_outcome (Player.make "A") (Enemy.make "B") [] (by decide) (by decide)

/-- Claim C8: when the save file cannot be opened, `loadGame` reports the
error, constructs no Player (the `player` field keeps its previous
value), and does not enter combat — control falls back to the menu
loop. -/
theorem load_open_failure_state_unchanged (prev : Option Player) :
    loadGame prev none =
      { player := prev, enteredCombat := false, errorReported := true } := rfl

/-- Claim C9: in an ongoing combat iteration, the collect-treasure action
continues the loop with the treasure counter raised by exactly 1, both
healths unchanged, the name unchanged, and the same untouched Enemy — no
enemy attack happens. -/
theorem collect_treasure_frame (p : Player) (e : Enemy) (rest : List Action)
    (hp : p.health > 0) (he : e.health > 0) :
    play p e (.collect :: rest) = play p.collectTreasure e rest ∧
    p.collectTreasure.treasuresCollected = p.treasuresCollected + 1 ∧
    p.collectTreasure.health = p.health ∧
    p.collectTreasure.name = p.name := by
  refine ⟨?_, rfl, rfl, rfl⟩
  rw [play, if_pos ⟨hp, he⟩]

/-- Claim C9 witness: the theorem instantiated at a fresh Player and
Enemy. -/
theorem collect_treasure_frame_witness :
    play (Player.make "A") (Enemy.make "B") [.collect] =
      play (Player.make "A").collectTreasure (Enemy.make "B") [] ∧
    (Player.make "A").collectTreasure.treasuresCollected =
      (Player.make "A").treasuresCollected + 1 ∧
    (Player.make "A").collectTreasure.health = (Player.make "A").health ∧
    (Player.make "A").collectTreasure.name = (Player.make "A").name :=
  collect_treasure_frame (Player.make "A") (Enemy.make "B") [] (by decide) (by decide)

/-- Claim C10: when the file opens but the health extraction fails, no
error is reported; the stored value defaults to 0 (C++11 extraction
semantics), the loaded Player sits at health 0 after the 100-damage
adjustment, combat is entered, and the loop terminates immediately with
the defeat outcome whatever actions are queued. -/
theorem load_parse_failure_defeat (n : String) (acts : List Action)
    (prev : Option Player) :
    (loadGame prev (some { name := n, healthTok := none })).errorReported = false ∧
    (loadGame prev (some { name := n, healthTok := none })).enteredCombat = true ∧
    (loadGame prev (some { name := n, healthTok := none })).player =
      some { name := n, health := 0, treasuresCollected := 0 } ∧
    play { name := n, health := 0, treasuresCollected := 0 } (Enemy.make "Goblin") acts =
      (some .defeated, none) := by
  refine ⟨rfl, rfl, ?_, ?_⟩
  · show some ((Player.make n).takeDamage (100 - (0:Int))) = _
    rfl
  · exact play_defeated _ _ acts (by norm_num)

end AdventureGame
